import Mathlib

/-!
Shallow embedding of the ContentFlow newsletter pipeline
(`state.py`, `config.py`, `agents.py`, `graph.py`, `app.py`).

External collaborators (the Tavily search client and the three ChatOpenAI
models) are modelled as function-valued parameters returning `Except String _`:
`Except.error` models a raised Python exception.  Wall-clock time is modelled
by an explicit `Clock` record supplying each stage's measured duration (in
whole seconds, a `Nat`) and the rendered generation date; the Python code reads
these from `time.time()` and `datetime.now()`.

String helpers mirror the Python string methods used by the source
(`str.split("\n")`, `str.strip`, `str.split()`, `str.replace(" ", "_")`);
they are implemented over `List Char` so that they compute by kernel
reduction.
-/

namespace ContentFlow

/-- Whitespace test used by the models of Python `str.strip` / `str.split`. -/
def isWS (c : Char) : Bool :=
  c = ' ' || c = '\t' || c = '\n' || c = '\r'

/-- Split a character list at every character satisfying `p`, keeping empty
segments, as Python `str.split(sep)` does for a one-character separator. -/
def splitOnPred (p : Char → Bool) : List Char → List (List Char)
  | [] => [[]]
  | c :: rest =>
    match splitOnPred p rest with
    | [] => [[c]]
    | h :: t => if p c then [] :: h :: t else (c :: h) :: t

/-- Model of Python `s.split("\n")`. -/
def splitNewlines (s : String) : List String :=
  (splitOnPred (fun c => c = '\n') s.data).map (fun cs => String.mk cs)

/-- Model of Python `s.strip()`: drop leading and trailing whitespace. -/
def pystrip (s : String) : String :=
  String.mk ((((s.data.dropWhile isWS).reverse).dropWhile isWS).reverse)

/-- Model of Python `s.split()` (no separator): split on whitespace runs and
drop the empty segments. -/
def pywords (s : String) : List String :=
  ((splitOnPred isWS s.data).map (fun cs => String.mk cs)).filter (fun w => w ≠ "")

/-- Model of Python `s.replace(" ", "_")` (single-character replacement). -/
def replaceSpaces (s : String) : String :=
  String.mk (s.data.map (fun c => if c = ' ' then '_' else c))

/-- Model of the Python f-string `f"{duration:.2f}"` under the whole-second
time model: durations are integral, so two zero decimals are rendered. -/
def formatDuration (n : Nat) : String :=
  toString n ++ ".00"

/-- Lookup in an insertion-ordered association list, as Python `dict` access
`m.get(k)` / `m[k]`. -/
def dictGet {α : Type} (m : List (String × α)) (k : String) : Option α :=
  match m with
  | [] => none
  | (k', v) :: rest => if k' = k then some v else dictGet rest k

/-- Model of the Python dict merge `{**m, k: v}`: replace the value at `k` in
place when the key is present, otherwise append the new binding. -/
def dictInsert {α : Type} (m : List (String × α)) (k : String) (v : α) :
    List (String × α) :=
  match m with
  | [] => [(k, v)]
  | (k', v') :: rest =>
    if k' = k then (k, v) :: rest else (k', v') :: dictInsert rest k v

/-- One result dict of the search service: `{content: ..., url: ...}`. -/
structure SearchResult where
  content : String
  url : String
  deriving DecidableEq, Repr

/-- Per-stage performance record built by each agent
(`performance_data` in `agents.py`).  `count` is `findings_count` for the
research stage and `word_count` for the writer and newsletter stages;
`passedTime` and `passedCount` are the two `passed_thresholds` booleans. -/
structure PerformanceData where
  duration : Nat
  count : Nat
  passedTime : Bool
  passedCount : Bool
  deriving DecidableEq, Repr

/-- The pipeline state dict (`AgentState` in `state.py`, plus the
`performance_metrics` key that `graph.py` initialises and the agents carry). -/
structure AgentState where
  topic : String
  recipient_email : String
  research_findings : List String
  research_sources : List String
  full_article : String
  article_title : String
  newsletter_summary : String
  email_subject : String
  email_body : String
  status : String
  error : Option String
  messages : List String
  performance_metrics : List (String × PerformanceData)
  deriving DecidableEq, Repr

/-- The external collaborators of `agents.py`: the Tavily search client and
the three per-agent ChatOpenAI models from `AGENT_MODELS`.  `Except.error`
models a raised exception; `Except.ok` models a normal return whose payload
is the `.content` string (or the result list, for search). -/
structure Services where
  search : String → Nat → Except String (List SearchResult)
  generateResearch : String → Except String String
  generateWriter : String → Except String String
  generateNewsletter : String → Except String String

/-- Wall-clock readings of one run: each stage's elapsed duration in whole
seconds and the `datetime.now().strftime(...)` date rendered into the email
body. -/
structure Clock where
  researchDuration : Nat
  writerDuration : Nat
  newsletterDuration : Nat
  nowDate : String

/- `PERFORMANCE_THRESHOLDS` from `config.py`. -/

def research_max_duration_seconds : Nat := 30
def research_min_findings : Nat := 3
def writer_max_duration_seconds : Nat := 45
def writer_min_word_count : Nat := 400
def newsletter_max_duration_seconds : Nat := 20
def newsletter_min_word_count : Nat := 150

/-- The research prompt f-string of `research_agent`. -/
def research_prompt (topic search_results : String) : String :=
  "\n    Based on these search results about " ++ topic ++ ":\n    " ++
  search_results ++
  "\n    \n    Extract 5-7 key findings or important points.\n    Format as a list of clear, concise statements.\n    "

/-- Python `[f.strip() for f in findings.split("\n") if f.strip()]`. -/
def parseFindings (findings : String) : List String :=
  ((splitNewlines findings).map pystrip).filter (fun f => f ≠ "")

/-- The research agent (`agents.py`).  A search failure is caught and replaced
by the fallback text; a failure of the generation call propagates. -/
def research_agent (svc : Services) (dur : Nat) (state : AgentState) :
    Except String AgentState := do
  let topic := state.topic
  let (search_results, sources) :=
    match svc.search (topic ++ " latest news 2024") 5 with
    | .ok results =>
        (String.intercalate "\n" (results.map (fun r => "- " ++ r.content)),
         (results.map (fun r => r.url)).take 3)
    | .error _ =>
        ("Search unavailable. Using general knowledge about " ++ topic ++ ".",
         ["General knowledge"])
  let findings ← svc.generateResearch (research_prompt topic search_results)
  let findings_list := parseFindings findings
  let performance_data : PerformanceData :=
    { duration := dur
      count := findings_list.length
      passedTime := dur ≤ research_max_duration_seconds
      passedCount := findings_list.length ≥ research_min_findings }
  return { state with
    research_findings := findings_list
    research_sources := sources
    status := "research_complete"
    messages := state.messages ++
      ["Research completed in " ++ formatDuration dur ++ "s"]
    performance_metrics :=
      dictInsert state.performance_metrics "research" performance_data }

/-- The writer prompt f-string of `writer_agent`. -/
def writer_prompt (topic research : String) : String :=
  "\n    Write a comprehensive article about " ++ topic ++
  ".\n    \n    Use these research findings:\n    " ++ research ++
  "\n    \n    Structure:\n    1. Engaging introduction\n    2. Main body with 3-4 sections\n    3. Conclusion\n    \n    Make it informative and engaging. About 500-700 words.\n    "

/-- The title prompt f-string of `writer_agent`. -/
def title_prompt (topic : String) : String :=
  "Create a catchy title for this article about " ++ topic

/-- The writer agent (`agents.py`): one generation call for the article, a
second for the title; either failure propagates. -/
def writer_agent (svc : Services) (dur : Nat) (state : AgentState) :
    Except String AgentState := do
  let topic := state.topic
  let research := String.intercalate "\n" state.research_findings
  let article ← svc.generateWriter (writer_prompt topic research)
  let title ← svc.generateWriter (title_prompt topic)
  let word_count := (pywords article).length
  let performance_data : PerformanceData :=
    { duration := dur
      count := word_count
      passedTime := dur ≤ writer_max_duration_seconds
      passedCount := word_count ≥ writer_min_word_count }
  return { state with
    full_article := article
    article_title := title
    status := "writing_complete"
    messages := state.messages ++
      ["Article written in " ++ formatDuration dur ++ "s (" ++
        toString word_count ++ " words)"]
    performance_metrics :=
      dictInsert state.performance_metrics "writer" performance_data }

/-- The summary prompt f-string of `newsletter_agent`. -/
def summary_prompt (title article : String) : String :=
  "\n    Create a newsletter summary of this article:\n    \n    Title: " ++
  title ++ "\n    Article: " ++ article ++
  "\n    \n    Make it:\n    1. 150-200 words\n    2. Highlight key points\n    3. Include a call-to-action\n    4. Email-friendly formatting\n    "

/-- The email-body f-string of `newsletter_agent`. -/
def emailBodyRender (title summary date : String) : String :=
  "\n    <h2>" ++ title ++ "</h2>\n    \n    " ++ summary ++
  "\n    \n    <p><a href=\"#\">Read Full Article</a></p>\n    \n    <hr>\n    <p>Generated on " ++
  date ++ "</p>\n    "

/-- The newsletter agent (`agents.py`): one generation call for the summary
(failure propagates), then templated subject and body. -/
def newsletter_agent (svc : Services) (dur : Nat) (nowDate : String)
    (state : AgentState) : Except String AgentState := do
  let article := state.full_article
  let title := state.article_title
  let summary ← svc.generateNewsletter (summary_prompt title article)
  let subject := "Newsletter: " ++ title
  let email_body := emailBodyRender title summary nowDate
  let summary_word_count := (pywords summary).length
  let performance_data : PerformanceData :=
    { duration := dur
      count := summary_word_count
      passedTime := dur ≤ newsletter_max_duration_seconds
      passedCount := summary_word_count ≥ newsletter_min_word_count }
  return { state with
    newsletter_summary := summary
    email_subject := subject
    email_body := email_body
    status := "newsletter_complete"
    messages := state.messages ++
      ["Newsletter created in " ++ formatDuration dur ++ "s"]
    performance_metrics :=
      dictInsert state.performance_metrics "newsletter" performance_data }

/-- The initial state built by `run_newsletter_workflow` in `graph.py`. -/
def initial_state (topic email : String) : AgentState :=
  { topic := topic
    recipient_email := email
    research_findings := []
    research_sources := []
    full_article := ""
    article_title := ""
    newsletter_summary := ""
    email_subject := ""
    email_body := ""
    status := "starting"
    error := none
    messages := ["Workflow started"]
    performance_metrics := [] }

/-- The `thread_id` derivation of `run_newsletter_workflow`:
`f"newsletter_\x7btopic.replace(' ', '_')\x7d_\x7bemail\x7d"`. -/
def thread_id (topic email : String) : String :=
  "newsletter_" ++ replaceSpaces topic ++ "_" ++ email

/-- Execution of the compiled linear graph `research → writer → newsletter`
(`create_workflow` + `app.invoke` in `graph.py`), instrumented with the
observable execution record: the final `Except` outcome, the names of the
nodes that started executing, and the checkpoint snapshots the `MemorySaver`
stores after each completed node.  A stage raising aborts the run there. -/
def workflowSteps (svc : Services) (clock : Clock) (s0 : AgentState) :
    Except String AgentState × List String × List AgentState :=
  match research_agent svc clock.researchDuration s0 with
  | .error e => (.error e, ["research"], [])
  | .ok s1 =>
    match writer_agent svc clock.writerDuration s1 with
    | .error e => (.error e, ["research", "writer"], [s1])
    | .ok s2 =>
      match newsletter_agent svc clock.newsletterDuration clock.nowDate s2 with
      | .error e => (.error e, ["research", "writer", "newsletter"], [s1, s2])
      | .ok s3 => (.ok s3, ["research", "writer", "newsletter"], [s1, s2, s3])

/-- `app.invoke(initial_state, config)`: the outcome of running the graph. -/
def invokeWorkflow (svc : Services) (clock : Clock) (s0 : AgentState) :
    Except String AgentState :=
  (workflowSteps svc clock s0).1

/-- Names of the graph nodes that started executing in a run. -/
def stagesStarted (svc : Services) (clock : Clock) (s0 : AgentState) :
    List String :=
  (workflowSteps svc clock s0).2.1

/-- Checkpoint snapshots stored after each completed node. -/
def checkpoints (svc : Services) (clock : Clock) (s0 : AgentState) :
    List AgentState :=
  (workflowSteps svc clock s0).2.2

/-- The result dict of `run_newsletter_workflow`: the success branch is the
dict with keys `success`, `data`, `thread_id`; the failure branch is the dict
with keys `success`, `error`, `data` (where `data` is `None`). -/
inductive RunResult where
  | success (data : AgentState) (tid : String)
  | failure (error : String)
  deriving DecidableEq, Repr

/-- Value of the `success` key of the result dict. -/
def RunResult.successFlag : RunResult → Bool
  | .success _ _ => true
  | .failure _ => false

/-- Value of the `data` key of the result dict (`none` models Python `None`). -/
def RunResult.dataField : RunResult → Option AgentState
  | .success s _ => some s
  | .failure _ => none

/-- Value of the `thread_id` key when present, `none` when the key is absent. -/
def RunResult.threadIdField : RunResult → Option String
  | .success _ t => some t
  | .failure _ => none

/-- Value of the `error` key when present, `none` when the key is absent. -/
def RunResult.errorField : RunResult → Option String
  | .success _ _ => none
  | .failure e => some e

/-- Whether the result dict contains a `thread_id` key at all: only the
success branch of `run_newsletter_workflow` puts one in. -/
def RunResult.hasThreadIdKey : RunResult → Bool
  | .success _ _ => true
  | .failure _ => false

/-- Whether the result dict contains an `error` key at all: only the failure
branch of `run_newsletter_workflow` puts one in. -/
def RunResult.hasErrorKey : RunResult → Bool
  | .success _ _ => false
  | .failure _ => true

/-- `run_newsletter_workflow` from `graph.py`: build the initial state, run
the graph under the derived `thread_id`, and wrap the outcome.  The
`try/except` around `app.invoke` catches every stage exception, so this
function is total. -/
def run_newsletter_workflow (svc : Services) (clock : Clock)
    (topic email : String) : RunResult :=
  match invokeWorkflow svc clock (initial_state topic email) with
  | .ok final => .success final (thread_id topic email)
  | .error e => .failure e

/-- Model of the module-level `workflow_results` store in `app.py`:
`workflow_results[thread_id] = result["data"]` is a keyed overwrite. -/
def storeResult (store : List (String × AgentState)) (tid : String)
    (s : AgentState) : List (String × AgentState) :=
  dictInsert store tid s

/-! Concrete stubbed collaborators used to instantiate the theorems. -/

/-- Stub services where every external call succeeds with fixed responses. -/
def svcGood : Services :=
  { search := fun _ _ =>
      .ok [⟨"content one", "http://u1"⟩, ⟨"content two", "http://u2"⟩]
    generateResearch := fun _ => .ok "Finding one\nFinding two\nFinding three"
    generateWriter := fun _ => .ok "Solar power is growing fast across the world"
    generateNewsletter := fun _ => .ok "A short summary with a call to action" }

/-- Stub services where the search call raises. -/
def svcSearchFail : Services :=
  { svcGood with search := fun _ _ => .error "search transport error" }

/-- Stub services where the writer-stage generation call raises. -/
def svcWriterFail : Services :=
  { svcGood with generateWriter := fun _ => .error "writer model down" }

/-- Stub services where the research-stage generation call raises. -/
def svcResearchFail : Services :=
  { svcGood with generateResearch := fun _ => .error "research model down" }

/-- Stub services whose research generation returns a non-empty but
whitespace-only response. -/
def svcBlankResearch : Services :=
  { svcGood with generateResearch := fun _ => .ok " " }

/-- A concrete clock reading. -/
def clockW : Clock :=
  { researchDuration := 1, writerDuration := 2, newsletterDuration := 3
    nowDate := "October 12, 2025" }

/-- A second, different clock reading. -/
def clockW2 : Clock :=
  { researchDuration := 4, writerDuration := 5, newsletterDuration := 6
    nowDate := "November 03, 2025" }

/-! Association-list lemmas about the dict-merge model. -/

theorem dictGet_insert_self {α : Type} (m : List (String × α)) (k : String)
    (v : α) : dictGet (dictInsert m k v) k = some v := by
  induction m with
  | nil => simp [dictInsert, dictGet]
  | cons p rest ih =>
    obtain ⟨k', v'⟩ := p
    by_cases h : k' = k <;> simp [dictInsert, dictGet, h, ih]

theorem dictGet_insert_of_ne {α : Type} (m : List (String × α))
    (k k' : String) (v : α) (h : k' ≠ k) :
    dictGet (dictInsert m k v) k' = dictGet m k' := by
  have hne : ¬ k = k' := fun e => h (Eq.symm e)
  induction m with
  | nil => simp [dictInsert, dictGet, hne]
  | cons p rest ih =>
    obtain ⟨k₀, v₀⟩ := p
    by_cases h₀ : k₀ = k
    · subst h₀
      simp [dictInsert, dictGet, hne]
    · simp [dictInsert, dictGet, h₀, ih]

theorem map_fst_dictInsert {α β : Type} (m : List (String × α))
    (m' : List (String × β)) (k : String) (v : α) (w : β)
    (h : m.map Prod.fst = m'.map Prod.fst) :
    (dictInsert m k v).map Prod.fst = (dictInsert m' k w).map Prod.fst := by
  induction m generalizing m' with
  | nil =>
    cases m' with
    | nil => simp [dictInsert]
    | cons q rest' => simp at h
  | cons p rest ih =>
    cases m' with
    | nil => simp at h
    | cons q rest' =>
      obtain ⟨k₁, v₁⟩ := p
      obtain ⟨k₂, v₂⟩ := q
      simp at h
      obtain ⟨hk, hrest⟩ := h
      subst hk
      by_cases hkk : k₁ = k <;>
        simp [dictInsert, hkk, hrest, ih rest' hrest]

/-! Shape lemmas: the complete effect of one successful stage on the state. -/

/-- The result state of a successful research stage is the input state with
exactly the research outputs, status, one appended message, and the merged
`research` metrics entry replaced. -/
theorem research_agent_ok_shape (svc : Services) (d : Nat) (s t : AgentState)
    (h : research_agent svc d s = .ok t) :
    ∃ findings sources pd,
      t = { s with
            research_findings := parseFindings findings
            research_sources := sources
            status := "research_complete"
            messages := s.messages ++
              ["Research completed in " ++ formatDuration d ++ "s"]
            performance_metrics :=
              dictInsert s.performance_metrics "research" pd } := by
  unfold research_agent at h
  simp only [bind, Except.bind] at h
  split at h
  next heq => exact Except.noConfusion h
  next findings hg =>
    split at h <;>
    · simp only [pure, Except.pure, Except.ok.injEq] at h
      exact ⟨findings, _, _, h.symm⟩

/-- The result state of a successful writer stage is the input state with
exactly the article outputs, status, one appended message, and the merged
`writer` metrics entry replaced. -/
theorem writer_agent_ok_shape (svc : Services) (d : Nat) (s t : AgentState)
    (h : writer_agent svc d s = .ok t) :
    ∃ article title pd,
      t = { s with
            full_article := article
            article_title := title
            status := "writing_complete"
            messages := s.messages ++
              ["Article written in " ++ formatDuration d ++ "s (" ++
                toString (pywords article).length ++ " words)"]
            performance_metrics :=
              dictInsert s.performance_metrics "writer" pd } := by
  unfold writer_agent at h
  simp only [bind, Except.bind] at h
  split at h
  next => exact Except.noConfusion h
  next article ha =>
    split at h
    next => exact Except.noConfusion h
    next title ht =>
      simp only [pure, Except.pure, Except.ok.injEq] at h
      exact ⟨article, title, _, h.symm⟩

/-- The result state of a successful newsletter stage is the input state with
exactly the newsletter outputs, status, one appended message, and the merged
`newsletter` metrics entry replaced. -/
theorem newsletter_agent_ok_shape (svc : Services) (d : Nat) (nd : String)
    (s t : AgentState) (h : newsletter_agent svc d nd s = .ok t) :
    ∃ summary pd,
      t = { s with
            newsletter_summary := summary
            email_subject := "Newsletter: " ++ s.article_title
            email_body := emailBodyRender s.article_title summary nd
            status := "newsletter_complete"
            messages := s.messages ++
              ["Newsletter created in " ++ formatDuration d ++ "s"]
            performance_metrics :=
              dictInsert s.performance_metrics "newsletter" pd } := by
  unfold newsletter_agent at h
  simp only [bind, Except.bind] at h
  split at h
  next => exact Except.noConfusion h
  next summary hsum =>
    simp only [pure, Except.pure, Except.ok.injEq] at h
    exact ⟨summary, _, h.symm⟩

/-! Small helper lemmas. -/

/-- Projection of a stage outcome to the produced state, if any. -/
def okState : Except String AgentState → Option AgentState
  | .ok t => some t
  | .error _ => none

theorem append_ne_empty (a b : String) (h : a ≠ "") : a ++ b ≠ "" := by
  intro hc
  apply h
  have hd := congrArg String.data hc
  rw [String.data_append] at hd
  rcases List.append_eq_nil.mp hd with ⟨ha, _⟩
  cases a
  simp_all

theorem parseFindings_ne_nil (r : String)
    (h : ∃ l ∈ splitNewlines r, pystrip l ≠ "") : parseFindings r ≠ [] := by
  obtain ⟨l, hl, hne⟩ := h
  intro hnil
  unfold parseFindings at hnil
  rw [List.filter_eq_nil_iff] at hnil
  exact absurd (by simpa using hnil _ (List.mem_map_of_mem pystrip hl)) hne

theorem take_three_map_ne_nil {α β : Type} (f : α → β) (l : List α)
    (h : l ≠ []) : (l.map f).take 3 ≠ [] := by
  cases l with
  | nil => exact absurd rfl h
  | cons a rest => simp [List.take]

/-- The research stage never consults the newsletter model. -/
theorem research_agent_ignores_newsletter (svc : Services)
    (g : String → Except String String) (d : Nat) (s : AgentState) :
    research_agent { svc with generateNewsletter := g } d s =
      research_agent svc d s := rfl

/-- The writer stage never consults the newsletter model. -/
theorem writer_agent_ignores_newsletter (svc : Services)
    (g : String → Except String String) (d : Nat) (s : AgentState) :
    writer_agent { svc with generateNewsletter := g } d s =
      writer_agent svc d s := rfl

/-- If every writer-model call raises, the writer stage raises. -/
theorem writer_agent_error (svc : Services) (exc : String)
    (hw : ∀ p, svc.generateWriter p = .error exc) (d : Nat) (s : AgentState) :
    writer_agent svc d s = .error exc := by
  unfold writer_agent
  simp [hw, bind, Except.bind]

/-! Unfolding equations presenting each stage as a match on its
text-generation calls. -/

/-- The `try/except tavily.search` block of the research agent: the prompt
context string and the source list it produces. -/
def searchBlock (svc : Services) (topic : String) : String × List String :=
  match svc.search (topic ++ " latest news 2024") 5 with
  | .ok results =>
      (String.intercalate "\n" (results.map (fun r => "- " ++ r.content)),
       (results.map (fun r => r.url)).take 3)
  | .error _ =>
      ("Search unavailable. Using general knowledge about " ++ topic ++ ".",
       ["General knowledge"])

theorem research_agent_eq (svc : Services) (d : Nat) (s : AgentState) :
    research_agent svc d s =
      match svc.generateResearch
          (research_prompt s.topic (searchBlock svc s.topic).1) with
      | .error e => .error e
      | .ok findings =>
        .ok { s with
              research_findings := parseFindings findings
              research_sources := (searchBlock svc s.topic).2
              status := "research_complete"
              messages := s.messages ++
                ["Research completed in " ++ formatDuration d ++ "s"]
              performance_metrics :=
                dictInsert s.performance_metrics "research"
                  { duration := d
                    count := (parseFindings findings).length
                    passedTime := decide (d ≤ research_max_duration_seconds)
                    passedCount :=
                      decide ((parseFindings findings).length ≥
                        research_min_findings) } } := by
  cases hs : svc.search (s.topic ++ " latest news 2024") 5 with
  | ok results =>
    cases hg : svc.generateResearch (research_prompt s.topic
        (String.intercalate "\n" (results.map (fun r => "- " ++ r.content)))) with
    | error e =>
      simp [research_agent, searchBlock, hs, hg, bind, Except.bind]
    | ok findings =>
      simp [research_agent, searchBlock, hs, hg, bind, Except.bind, pure,
        Except.pure]
  | error err =>
    cases hg : svc.generateResearch (research_prompt s.topic
        ("Search unavailable. Using general knowledge about " ++ s.topic ++ ".")) with
    | error e =>
      simp [research_agent, searchBlock, hs, hg, bind, Except.bind]
    | ok findings =>
      simp [research_agent, searchBlock, hs, hg, bind, Except.bind, pure,
        Except.pure]

theorem writer_agent_eq (svc : Services) (d : Nat) (s : AgentState) :
    writer_agent svc d s =
      match svc.generateWriter
          (writer_prompt s.topic (String.intercalate "\n" s.research_findings)) with
      | .error e => .error e
      | .ok article =>
        match svc.generateWriter (title_prompt s.topic) with
        | .error e => .error e
        | .ok title =>
          .ok { s with
                full_article := article
                article_title := title
                status := "writing_complete"
                messages := s.messages ++
                  ["Article written in " ++ formatDuration d ++ "s (" ++
                    toString (pywords article).length ++ " words)"]
                performance_metrics :=
                  dictInsert s.performance_metrics "writer"
                    { duration := d
                      count := (pywords article).length
                      passedTime := decide (d ≤ writer_max_duration_seconds)
                      passedCount :=
                        decide ((pywords article).length ≥
                          writer_min_word_count) } } := by
  cases ha : svc.generateWriter
      (writer_prompt s.topic (String.intercalate "\n" s.research_findings)) with
  | error e => simp [writer_agent, ha, bind, Except.bind]
  | ok article =>
    cases hti : svc.generateWriter (title_prompt s.topic) with
    | error e => simp [writer_agent, ha, hti, bind, Except.bind]
    | ok title =>
      simp [writer_agent, ha, hti, bind, Except.bind, pure, Except.pure]

theorem newsletter_agent_eq (svc : Services) (d : Nat) (nd : String)
    (s : AgentState) :
    newsletter_agent svc d nd s =
      match svc.generateNewsletter
          (summary_prompt s.article_title s.full_article) with
      | .error e => .error e
      | .ok summary =>
        .ok { s with
              newsletter_summary := summary
              email_subject := "Newsletter: " ++ s.article_title
              email_body := emailBodyRender s.article_title summary nd
              status := "newsletter_complete"
              messages := s.messages ++
                ["Newsletter created in " ++ formatDuration d ++ "s"]
              performance_metrics :=
                dictInsert s.performance_metrics "newsletter"
                  { duration := d
                    count := (pywords summary).length
                    passedTime := decide (d ≤ newsletter_max_duration_seconds)
                    passedCount :=
                      decide ((pywords summary).length ≥
                        newsletter_min_word_count) } } := by
  cases hg : svc.generateNewsletter
      (summary_prompt s.article_title s.full_article) with
  | error e => simp [newsletter_agent, hg, bind, Except.bind]
  | ok summary =>
    simp [newsletter_agent, hg, bind, Except.bind, pure, Except.pure]

/-! Agreement relations used for the clock-independence property. -/

/-- Agreement of two states on every field that embeds no wall-clock
reading, together with structural agreement of the time-bearing fields:
the message logs have the same length and the metrics maps have the same
keys in the same order. -/
def StableAgree (s s' : AgentState) : Prop :=
  s.topic = s'.topic ∧ s.recipient_email = s'.recipient_email ∧
  s.research_findings = s'.research_findings ∧
  s.research_sources = s'.research_sources ∧
  s.full_article = s'.full_article ∧ s.article_title = s'.article_title ∧
  s.newsletter_summary = s'.newsletter_summary ∧
  s.email_subject = s'.email_subject ∧
  s.status = s'.status ∧ s.error = s'.error ∧
  s.messages.length = s'.messages.length ∧
  s.performance_metrics.map Prod.fst = s'.performance_metrics.map Prod.fst

/-- `StableAgree` plus agreement on the email body (which holds before the
newsletter stage stamps the generation date into it). -/
def PreAgree (s s' : AgentState) : Prop :=
  StableAgree s s' ∧ s.email_body = s'.email_body

theorem preAgree_refl (s : AgentState) : PreAgree s s :=
  ⟨⟨rfl, rfl, rfl, rfl, rfl, rfl, rfl, rfl, rfl, rfl, rfl, rfl⟩, rfl⟩

theorem research_agent_congr (svc : Services) (d1 d2 : Nat) (s s' : AgentState)
    (h : PreAgree s s') :
    (∃ e, research_agent svc d1 s = .error e ∧
          research_agent svc d2 s' = .error e) ∨
    (∃ t t', research_agent svc d1 s = .ok t ∧
             research_agent svc d2 s' = .ok t' ∧ PreAgree t t') := by
  obtain ⟨⟨ht, he, hrf, hrs, hfa, hat, hns, hes, hst, herr, hml, hmk⟩, heb⟩ := h
  rw [research_agent_eq svc d1 s, research_agent_eq svc d2 s', ← ht]
  cases hg : svc.generateResearch
      (research_prompt s.topic (searchBlock svc s.topic).1) with
  | error e => exact Or.inl ⟨e, rfl, rfl⟩
  | ok findings =>
    refine Or.inr ⟨_, _, rfl, rfl, ⟨rfl, he, rfl, rfl, hfa, hat, hns, hes, rfl,
      herr, ?_, ?_⟩, heb⟩
    · simp [hml]
    · exact map_fst_dictInsert _ _ _ _ _ hmk

theorem writer_agent_congr (svc : Services) (d1 d2 : Nat) (s s' : AgentState)
    (h : PreAgree s s') :
    (∃ e, writer_agent svc d1 s = .error e ∧
          writer_agent svc d2 s' = .error e) ∨
    (∃ t t', writer_agent svc d1 s = .ok t ∧
             writer_agent svc d2 s' = .ok t' ∧ PreAgree t t') := by
  obtain ⟨⟨ht, he, hrf, hrs, hfa, hat, hns, hes, hst, herr, hml, hmk⟩, heb⟩ := h
  rw [writer_agent_eq svc d1 s, writer_agent_eq svc d2 s', ← ht, ← hrf]
  cases ha : svc.generateWriter
      (writer_prompt s.topic (String.intercalate "\n" s.research_findings)) with
  | error e => exact Or.inl ⟨e, rfl, rfl⟩
  | ok article =>
    cases hti : svc.generateWriter (title_prompt s.topic) with
    | error e => exact Or.inl ⟨e, rfl, rfl⟩
    | ok title =>
      refine Or.inr ⟨_, _, rfl, rfl, ⟨rfl, he, rfl, hrs, rfl, rfl, hns, hes,
        rfl, herr, ?_, ?_⟩, heb⟩
      · simp [hml]
      · exact map_fst_dictInsert _ _ _ _ _ hmk

theorem newsletter_agent_congr (svc : Services) (d1 d2 : Nat)
    (nd1 nd2 : String) (s s' : AgentState) (h : PreAgree s s') :
    (∃ e, newsletter_agent svc d1 nd1 s = .error e ∧
          newsletter_agent svc d2 nd2 s' = .error e) ∨
    (∃ t t', newsletter_agent svc d1 nd1 s = .ok t ∧
             newsletter_agent svc d2 nd2 s' = .ok t' ∧
             StableAgree t t' ∧
             t.email_body =
               emailBodyRender t.article_title t.newsletter_summary nd1 ∧
             t'.email_body =
               emailBodyRender t'.article_title t'.newsletter_summary nd2) := by
  obtain ⟨⟨ht, he, hrf, hrs, hfa, hat, hns, hes, hst, herr, hml, hmk⟩, heb⟩ := h
  rw [newsletter_agent_eq svc d1 nd1 s, newsletter_agent_eq svc d2 nd2 s',
    ← hat, ← hfa]
  cases hg : svc.generateNewsletter
      (summary_prompt s.article_title s.full_article) with
  | error e => exact Or.inl ⟨e, rfl, rfl⟩
  | ok summary =>
    refine Or.inr ⟨_, _, rfl, rfl, ⟨ht, he, hrf, hrs, rfl, rfl, rfl, rfl, rfl,
      herr, ?_, ?_⟩, rfl, rfl⟩
    · simp [hml]
    · exact map_fst_dictInsert _ _ _ _ _ hmk

/-! Claim theorems. -/

/-- C10: the run/thread identifier derivation
`"newsletter_" ++ topic.replace(" ", "_") ++ "_" ++ email` is not injective:
the distinct requests (topic `"a b"`, email `"c"`) and (topic `"a"`, email
`"b_c"`) map to the same identifier, and storing the second run's record
under that identifier overwrites the first run's distinct record. -/
theorem C10_thread_id_collision :
    thread_id "a b" "c" = thread_id "a" "b_c" ∧
    ((("a b", "c") : String × String) == ("a", "b_c")) = false ∧
    dictGet
        (storeResult
          (storeResult [] (thread_id "a b" "c") (initial_state "a b" "c"))
          (thread_id "a" "b_c") (initial_state "a" "b_c"))
        (thread_id "a b" "c") =
      some (initial_state "a" "b_c") ∧
    (initial_state "a" "b_c" == initial_state "a b" "c") = false :=
  ⟨rfl, by decide, by decide, by decide⟩

/-- C2 (amended): `run_newsletter_workflow` is total (never raises) and
returns one of exactly two envelopes a caller can branch on via `success`:
on success the dict `{success: true, data: state, thread_id: derived id}`
(with no `error` key), and on failure the dict
`{success: false, error: message, data: None}` (with no `thread_id` key).
The original claim's requirement that both outcomes carry a `threadId`
string and an `error` field fails: see the counterexample. -/
theorem C2_envelope (svc : Services) (clock : Clock) (topic email : String) :
    ((run_newsletter_workflow svc clock topic email).successFlag = true ∧
     (run_newsletter_workflow svc clock topic email).hasThreadIdKey = true ∧
     (run_newsletter_workflow svc clock topic email).hasErrorKey = false ∧
     (run_newsletter_workflow svc clock topic email).threadIdField =
       some (thread_id topic email) ∧
     (∃ s, (run_newsletter_workflow svc clock topic email).dataField =
       some s)) ∨
    ((run_newsletter_workflow svc clock topic email).successFlag = false ∧
     (run_newsletter_workflow svc clock topic email).hasThreadIdKey = false ∧
     (run_newsletter_workflow svc clock topic email).hasErrorKey = true ∧
     (run_newsletter_workflow svc clock topic email).dataField = none ∧
     (∃ e, (run_newsletter_workflow svc clock topic email).errorField =
       some e)) := by
  unfold run_newsletter_workflow
  cases invokeWorkflow svc clock (initial_state topic email) with
  | ok s => exact Or.inl ⟨rfl, rfl, rfl, rfl, s, rfl⟩
  | error e => exact Or.inr ⟨rfl, rfl, rfl, rfl, e, rfl⟩

/-- C2 counterexample: in the failure outcome the returned dict contains no
`thread_id` key at all, and in the success outcome it contains no `error`
key, so the claimed envelope `{success, data, threadId, error}` is not
what both branches return. -/
theorem C2_counterexample :
    (run_newsletter_workflow svcResearchFail clockW "solar energy"
      "a@b.com").successFlag = false ∧
    (run_newsletter_workflow svcResearchFail clockW "solar energy"
      "a@b.com").hasThreadIdKey = false ∧
    (run_newsletter_workflow svcGood clockW "solar energy"
      "a@b.com").successFlag = true ∧
    (run_newsletter_workflow svcGood clockW "solar energy"
      "a@b.com").hasErrorKey = false :=
  ⟨rfl, rfl, rfl, rfl⟩

/-- C2 witness: the envelope alternative instantiated on concrete stubs. -/
theorem C2_witness :
    (run_newsletter_workflow svcGood clockW "solar energy"
      "a@b.com").hasThreadIdKey = true ∨
    (run_newsletter_workflow svcGood clockW "solar energy"
      "a@b.com").hasErrorKey = true := by
  rcases C2_envelope svcGood clockW "solar energy" "a@b.com" with h | h
  · exact Or.inl h.2.1
  · exact Or.inr h.2.2.1

/-- C3: if the writer stage's text-generation call raises, the invocation
result has `success == false` with a non-null error and null data, the
newsletter node never starts executing (equivalently, the run result does
not depend on the newsletter model at all), and no checkpointed state is
advanced past the research stage. -/
theorem C3_writer_failure_aborts (svc : Services) (clock : Clock)
    (topic email : String) (exc : String)
    (hw : ∀ p, svc.generateWriter p = .error exc) :
    (run_newsletter_workflow svc clock topic email).successFlag = false ∧
    (∃ e, (run_newsletter_workflow svc clock topic email).errorField =
      some e) ∧
    (run_newsletter_workflow svc clock topic email).dataField = none ∧
    "newsletter" ∉ stagesStarted svc clock (initial_state topic email) ∧
    (∀ g, run_newsletter_workflow { svc with generateNewsletter := g } clock
        topic email =
      run_newsletter_workflow svc clock topic email) ∧
    (∀ u ∈ checkpoints svc clock (initial_state topic email),
      u.status ≠ "writing_complete" ∧ u.status ≠ "newsletter_complete") := by
  cases hr : research_agent svc clock.researchDuration
      (initial_state topic email) with
  | error e =>
    have hsteps : workflowSteps svc clock (initial_state topic email) =
        (.error e, ["research"], []) := by
      simp [workflowSteps, hr]
    have hrun : run_newsletter_workflow svc clock topic email = .failure e := by
      simp [run_newsletter_workflow, invokeWorkflow, hsteps]
    refine ⟨by simp [hrun, RunResult.successFlag],
      ⟨e, by simp [hrun, RunResult.errorField]⟩,
      by simp [hrun, RunResult.dataField], ?_, ?_, ?_⟩
    · unfold stagesStarted
      rw [hsteps]
      show "newsletter" ∉ (["research"] : List String)
      decide
    · intro g
      have hr' : research_agent { svc with generateNewsletter := g }
          clock.researchDuration (initial_state topic email) = .error e := by
        rw [research_agent_ignores_newsletter]
        exact hr
      simp [run_newsletter_workflow, invokeWorkflow, workflowSteps, hr, hr']
    · intro u hu
      unfold checkpoints at hu
      rw [hsteps] at hu
      simp at hu
  | ok s1 =>
    have hw1 : writer_agent svc clock.writerDuration s1 = .error exc :=
      writer_agent_error svc exc hw _ _
    have hsteps : workflowSteps svc clock (initial_state topic email) =
        (.error exc, ["research", "writer"], [s1]) := by
      simp [workflowSteps, hr, hw1]
    have hrun : run_newsletter_workflow svc clock topic email =
        .failure exc := by
      simp [run_newsletter_workflow, invokeWorkflow, hsteps]
    refine ⟨by simp [hrun, RunResult.successFlag],
      ⟨exc, by simp [hrun, RunResult.errorField]⟩,
      by simp [hrun, RunResult.dataField], ?_, ?_, ?_⟩
    · unfold stagesStarted
      rw [hsteps]
      show "newsletter" ∉ (["research", "writer"] : List String)
      decide
    · intro g
      have hr' : research_agent { svc with generateNewsletter := g }
          clock.researchDuration (initial_state topic email) = .ok s1 := by
        rw [research_agent_ignores_newsletter]
        exact hr
      have hw1' : writer_agent { svc with generateNewsletter := g }
          clock.writerDuration s1 = .error exc := by
        rw [writer_agent_ignores_newsletter]
        exact hw1
      simp [run_newsletter_workflow, invokeWorkflow, workflowSteps, hr, hr',
        hw1, hw1']
    · intro u hu
      unfold checkpoints at hu
      rw [hsteps] at hu
      simp at hu
      subst hu
      obtain ⟨f, src, pd, hs1⟩ := research_agent_ok_shape _ _ _ _ hr
      rw [hs1]
      exact ⟨(by decide : ("research_complete" : String) ≠ "writing_complete"),
        (by decide : ("research_complete" : String) ≠ "newsletter_complete")⟩

/-- C3 witness: the failure envelope of a run whose writer model raises. -/
theorem C3_witness :
    (run_newsletter_workflow svcWriterFail clockW "solar energy"
      "a@b.com").successFlag = false ∧
    (run_newsletter_workflow svcWriterFail clockW "solar energy"
      "a@b.com").dataField = none := by
  have h := C3_writer_failure_aborts svcWriterFail clockW "solar energy"
    "a@b.com" "writer model down" (fun p => rfl)
  exact ⟨h.1, h.2.2.1⟩

/-- C4: if the search call raises and the research text-generation call
succeeds with a non-blank response (one of its lines survives stripping),
no exception escapes the research stage: it returns a state with non-empty
findings, the single-element source list `["General knowledge"]`, and
status `research_complete`. -/
theorem C4_research_degrade (svc : Services) (d : Nat) (s : AgentState)
    (exc r : String)
    (hs : ∀ q n, svc.search q n = .error exc)
    (hg : ∀ p, svc.generateResearch p = .ok r)
    (hr : ∃ l ∈ splitNewlines r, pystrip l ≠ "") :
    ∃ t, research_agent svc d s = .ok t ∧
      t.research_findings ≠ [] ∧
      t.research_sources = ["General knowledge"] ∧
      t.status = "research_complete" := by
  simp only [research_agent_eq, hg]
  refine ⟨_, rfl, ?_, ?_, rfl⟩
  · exact parseFindings_ne_nil r hr
  · show (searchBlock svc s.topic).2 = ["General knowledge"]
    simp [searchBlock, hs]

/-- C4 witness: the degraded research stage on concrete stubs. -/
theorem C4_witness :
    ((okState (research_agent svcSearchFail 1
        (initial_state "solar energy" "a@b.com"))).map
      AgentState.research_sources) = some ["General knowledge"] ∧
    ((okState (research_agent svcSearchFail 1
        (initial_state "solar energy" "a@b.com"))).map
      (fun t => t.research_findings.isEmpty)) = some false ∧
    ((okState (research_agent svcSearchFail 1
        (initial_state "solar energy" "a@b.com"))).map
      AgentState.status) = some "research_complete" := by
  obtain ⟨t, h1, h2, h3, h4⟩ := C4_research_degrade svcSearchFail 1
    (initial_state "solar energy" "a@b.com") "search transport error"
    "Finding one\nFinding two\nFinding three"
    (fun q n => rfl) (fun p => rfl) (by decide)
  rw [h1]
  simp [okState, h2, h3, h4, List.isEmpty_eq_false]

/-- C5: each stage writes only its own designated output fields plus the
shared control fields: the research stage leaves the writer and newsletter
outputs unchanged, the writer stage leaves the research and newsletter
outputs unchanged, the newsletter stage leaves the research and writer
outputs unchanged, and every stage leaves `topic`, `recipient_email` and
`error` unchanged. -/
theorem C5_frame (svc : Services) (d : Nat) (nd : String)
    (s t : AgentState) :
    (research_agent svc d s = .ok t →
      t.topic = s.topic ∧ t.recipient_email = s.recipient_email ∧
      t.full_article = s.full_article ∧ t.article_title = s.article_title ∧
      t.newsletter_summary = s.newsletter_summary ∧
      t.email_subject = s.email_subject ∧ t.email_body = s.email_body ∧
      t.error = s.error) ∧
    (writer_agent svc d s = .ok t →
      t.topic = s.topic ∧ t.recipient_email = s.recipient_email ∧
      t.research_findings = s.research_findings ∧
      t.research_sources = s.research_sources ∧
      t.newsletter_summary = s.newsletter_summary ∧
      t.email_subject = s.email_subject ∧ t.email_body = s.email_body ∧
      t.error = s.error) ∧
    (newsletter_agent svc d nd s = .ok t →
      t.topic = s.topic ∧ t.recipient_email = s.recipient_email ∧
      t.research_findings = s.research_findings ∧
      t.research_sources = s.research_sources ∧
      t.full_article = s.full_article ∧ t.article_title = s.article_title ∧
      t.error = s.error) := by
  refine ⟨fun h => ?_, fun h => ?_, fun h => ?_⟩
  · obtain ⟨f, src, pd, rfl⟩ := research_agent_ok_shape svc d s t h
    exact ⟨rfl, rfl, rfl, rfl, rfl, rfl, rfl, rfl⟩
  · obtain ⟨a, ti, pd, rfl⟩ := writer_agent_ok_shape svc d s t h
    exact ⟨rfl, rfl, rfl, rfl, rfl, rfl, rfl, rfl⟩
  · obtain ⟨su, pd, rfl⟩ := newsletter_agent_ok_shape svc d nd s t h
    exact ⟨rfl, rfl, rfl, rfl, rfl, rfl, rfl⟩

/-- C5 witness: the frame property observed on one concrete research run. -/
theorem C5_witness :
    ((okState (research_agent svcGood 1
        (initial_state "solar energy" "a@b.com"))).map AgentState.topic) =
      some "solar energy" ∧
    ((okState (research_agent svcGood 1
        (initial_state "solar energy" "a@b.com"))).map
      AgentState.full_article) = some "" := by
  obtain ⟨t, ht⟩ : ∃ t, research_agent svcGood 1
      (initial_state "solar energy" "a@b.com") = Except.ok t := ⟨_, rfl⟩
  have h := (C5_frame svcGood 1 "d"
    (initial_state "solar energy" "a@b.com") t).1 ht
  rw [ht]
  simp [okState, h.1, h.2.2.1, initial_state]

/-- C6: `performance_metrics` is merged, not replaced: each stage makes its
own entry present and leaves every other key's binding exactly as it found
it, so after stage N the entries of stages 1..N are all present; in
particular a fully successful run carries all three entries. -/
theorem C6_metrics_merge (svc : Services) (clock : Clock) (d : Nat)
    (nd : String) (s t : AgentState) :
    (research_agent svc d s = .ok t →
      (dictGet t.performance_metrics "research").isSome = true ∧
      ∀ k, k ≠ "research" →
        dictGet t.performance_metrics k = dictGet s.performance_metrics k) ∧
    (writer_agent svc d s = .ok t →
      (dictGet t.performance_metrics "writer").isSome = true ∧
      ∀ k, k ≠ "writer" →
        dictGet t.performance_metrics k = dictGet s.performance_metrics k) ∧
    (newsletter_agent svc d nd s = .ok t →
      (dictGet t.performance_metrics "newsletter").isSome = true ∧
      ∀ k, k ≠ "newsletter" →
        dictGet t.performance_metrics k = dictGet s.performance_metrics k) ∧
    (∀ u, invokeWorkflow svc clock s = .ok u →
      (dictGet u.performance_metrics "research").isSome = true ∧
      (dictGet u.performance_metrics "writer").isSome = true ∧
      (dictGet u.performance_metrics "newsletter").isSome = true) := by
  refine ⟨fun h => ?_, fun h => ?_, fun h => ?_, fun u h => ?_⟩
  · obtain ⟨f, src, pd, rfl⟩ := research_agent_ok_shape svc d s t h
    exact ⟨by rw [show ({ s with
        research_findings := parseFindings f
        research_sources := src
        status := "research_complete"
        messages := s.messages ++
          ["Research completed in " ++ formatDuration d ++ "s"]
        performance_metrics :=
          dictInsert s.performance_metrics "research" pd } :
          AgentState).performance_metrics =
        dictInsert s.performance_metrics "research" pd from rfl,
        dictGet_insert_self]; rfl,
      fun k hk => dictGet_insert_of_ne _ _ _ _ hk⟩
  · obtain ⟨a, ti, pd, rfl⟩ := writer_agent_ok_shape svc d s t h
    exact ⟨by rw [show ({ s with
        full_article := a
        article_title := ti
        status := "writing_complete"
        messages := s.messages ++
          ["Article written in " ++ formatDuration d ++ "s (" ++
            toString (pywords a).length ++ " words)"]
        performance_metrics :=
          dictInsert s.performance_metrics "writer" pd } :
          AgentState).performance_metrics =
        dictInsert s.performance_metrics "writer" pd from rfl,
        dictGet_insert_self]; rfl,
      fun k hk => dictGet_insert_of_ne _ _ _ _ hk⟩
  · obtain ⟨su, pd, rfl⟩ := newsletter_agent_ok_shape svc d nd s t h
    exact ⟨by rw [show ({ s with
        newsletter_summary := su
        email_subject := "Newsletter: " ++ s.article_title
        email_body := emailBodyRender s.article_title su nd
        status := "newsletter_complete"
        messages := s.messages ++
          ["Newsletter created in " ++ formatDuration d ++ "s"]
        performance_metrics :=
          dictInsert s.performance_metrics "newsletter" pd } :
          AgentState).performance_metrics =
        dictInsert s.performance_metrics "newsletter" pd from rfl,
        dictGet_insert_self]; rfl,
      fun k hk => dictGet_insert_of_ne _ _ _ _ hk⟩
  · cases hr : research_agent svc clock.researchDuration s with
    | error e =>
      unfold invokeWorkflow workflowSteps at h
      simp [hr] at h
    | ok s1 =>
      cases hw2 : writer_agent svc clock.writerDuration s1 with
      | error e =>
        unfold invokeWorkflow workflowSteps at h
        simp [hr, hw2] at h
      | ok s2 =>
        cases hn : newsletter_agent svc clock.newsletterDuration
            clock.nowDate s2 with
        | error e =>
          unfold invokeWorkflow workflowSteps at h
          simp [hr, hw2, hn] at h
        | ok s3 =>
          have hu : s3 = u := by
            unfold invokeWorkflow workflowSteps at h
            simp only [hr, hw2, hn, Except.ok.injEq] at h
            exact h
          subst hu
          obtain ⟨f, src, pd1, h1⟩ := research_agent_ok_shape _ _ _ _ hr
          obtain ⟨a, ti, pd2, h2⟩ := writer_agent_ok_shape _ _ _ _ hw2
          obtain ⟨su, pd3, h3⟩ := newsletter_agent_ok_shape _ _ _ _ _ hn
          rw [h3, h2, h1]
          refine ⟨?_, ?_, ?_⟩
          · show (dictGet (dictInsert (dictInsert (dictInsert
              s.performance_metrics "research" pd1) "writer" pd2)
              "newsletter" pd3) "research").isSome = true
            rw [dictGet_insert_of_ne _ _ _ _
                (by decide : ("research" : String) ≠ "newsletter"),
              dictGet_insert_of_ne _ _ _ _
                (by decide : ("research" : String) ≠ "writer"),
              dictGet_insert_self]
            rfl
          · show (dictGet (dictInsert (dictInsert (dictInsert
              s.performance_metrics "research" pd1) "writer" pd2)
              "newsletter" pd3) "writer").isSome = true
            rw [dictGet_insert_of_ne _ _ _ _
                (by decide : ("writer" : String) ≠ "newsletter"),
              dictGet_insert_self]
            rfl
          · show (dictGet (dictInsert (dictInsert (dictInsert
              s.performance_metrics "research" pd1) "writer" pd2)
              "newsletter" pd3) "newsletter").isSome = true
            rw [dictGet_insert_self]
            rfl

/-- C6 witness: all three metrics entries present after a full run. -/
theorem C6_witness :
    ((okState (invokeWorkflow svcGood clockW
        (initial_state "solar energy" "a@b.com"))).map
      (fun u => ((dictGet u.performance_metrics "research").isSome,
                 (dictGet u.performance_metrics "writer").isSome,
                 (dictGet u.performance_metrics "newsletter").isSome))) =
      some (true, true, true) := by
  obtain ⟨u, hu⟩ : ∃ u, invokeWorkflow svcGood clockW
      (initial_state "solar energy" "a@b.com") = Except.ok u := ⟨_, rfl⟩
  obtain ⟨h1, h2, h3⟩ := (C6_metrics_merge svcGood clockW 1 "d"
    (initial_state "solar energy" "a@b.com")
    (initial_state "solar energy" "a@b.com")).2.2.2 u hu
  rw [hu]
  simp [okState, h1, h2, h3]

/-- C7 (amended): `messages` is an append-only audit log: the initial state
already contains the single entry `"Workflow started"`, each completed stage
appends exactly one entry (so the log before a stage is a prefix of the log
after it), and after a successful run the length is `1 +` the number of
stages executed.  The original claim's count without the initial entry
fails: see the counterexample. -/
theorem C7_messages_audit (svc : Services) (clock : Clock) (d : Nat)
    (nd : String) (s t : AgentState) (topic email : String) :
    (initial_state topic email).messages = ["Workflow started"] ∧
    (research_agent svc d s = .ok t →
      ∃ m, t.messages = s.messages ++ [m]) ∧
    (writer_agent svc d s = .ok t →
      ∃ m, t.messages = s.messages ++ [m]) ∧
    (newsletter_agent svc d nd s = .ok t →
      ∃ m, t.messages = s.messages ++ [m]) ∧
    (∀ u, invokeWorkflow svc clock (initial_state topic email) = .ok u →
      u.messages.length =
        1 + (stagesStarted svc clock (initial_state topic email)).length) := by
  refine ⟨rfl, fun h => ?_, fun h => ?_, fun h => ?_, fun u h => ?_⟩
  · obtain ⟨f, src, pd, rfl⟩ := research_agent_ok_shape svc d s t h
    exact ⟨_, rfl⟩
  · obtain ⟨a, ti, pd, rfl⟩ := writer_agent_ok_shape svc d s t h
    exact ⟨_, rfl⟩
  · obtain ⟨su, pd, rfl⟩ := newsletter_agent_ok_shape svc d nd s t h
    exact ⟨_, rfl⟩
  · cases hr : research_agent svc clock.researchDuration
        (initial_state topic email) with
    | error e =>
      unfold invokeWorkflow workflowSteps at h
      simp [hr] at h
    | ok s1 =>
      cases hw2 : writer_agent svc clock.writerDuration s1 with
      | error e =>
        unfold invokeWorkflow workflowSteps at h
        simp [hr, hw2] at h
      | ok s2 =>
        cases hn : newsletter_agent svc clock.newsletterDuration
            clock.nowDate s2 with
        | error e =>
          unfold invokeWorkflow workflowSteps at h
          simp [hr, hw2, hn] at h
        | ok s3 =>
          have hu : s3 = u := by
            unfold invokeWorkflow workflowSteps at h
            simp only [hr, hw2, hn, Except.ok.injEq] at h
            exact h
          subst hu
          have hstarted : stagesStarted svc clock (initial_state topic email) =
              ["research", "writer", "newsletter"] := by
            unfold stagesStarted workflowSteps
            simp [hr, hw2, hn]
          obtain ⟨f, src, pd1, h1⟩ := research_agent_ok_shape _ _ _ _ hr
          obtain ⟨a, ti, pd2, h2⟩ := writer_agent_ok_shape _ _ _ _ hw2
          obtain ⟨su, pd3, h3⟩ := newsletter_agent_ok_shape _ _ _ _ _ hn
          rw [hstarted, h3, h2, h1]
          simp [initial_state]

/-- C7 counterexample: in a fully successful run all three stages execute,
yet the message log has four entries, because the runner seeds it with
`"Workflow started"`; its length is not the number of executed stages. -/
theorem C7_counterexample :
    ((okState (invokeWorkflow svcGood clockW
        (initial_state "solar energy" "a@b.com"))).map
      (fun u => u.messages.length)) = some 4 ∧
    (checkpoints svcGood clockW
      (initial_state "solar energy" "a@b.com")).length = 3 ∧
    ((okState (invokeWorkflow svcGood clockW
        (initial_state "solar energy" "a@b.com"))).map
      (fun u => u.messages)) =
      some ["Workflow started", "Research completed in 1.00s",
        "Article written in 2.00s (8 words)",
        "Newsletter created in 3.00s"] :=
  ⟨rfl, rfl, rfl⟩

/-- C7 witness: the amended count observed on a concrete successful run. -/
theorem C7_witness :
    ((okState (invokeWorkflow svcGood clockW
        (initial_state "solar energy" "a@b.com"))).map
      (fun u => u.messages.length)) =
      some (1 + (stagesStarted svcGood clockW
        (initial_state "solar energy" "a@b.com")).length) := by
  obtain ⟨u, hu⟩ : ∃ u, invokeWorkflow svcGood clockW
      (initial_state "solar energy" "a@b.com") = Except.ok u := ⟨_, rfl⟩
  have h := (C7_messages_audit svcGood clockW 1 "d"
    (initial_state "solar energy" "a@b.com")
    (initial_state "solar energy" "a@b.com")
    "solar energy" "a@b.com").2.2.2.2 u hu
  rw [hu]
  simp [okState, h]

/-- C8 (amended): an unrecoverable stage failure surfaces as the failure
envelope of the invocation (`.failure` carrying the describing string), and
after the failing stage no further stage executes (exactly one more stage
starts than completes).  The `error` field of the PipelineState itself is
never written by any stage: successful stages pass it through unchanged and
every checkpointed state still carries the initial `none`.  The original
claim, which says the state's `error` field is set on failure, fails: see
the counterexample. -/
theorem C8_error_handling (svc : Services) (clock : Clock) (d : Nat)
    (nd : String) (s t : AgentState) (topic email : String) :
    (research_agent svc d s = .ok t → t.error = s.error) ∧
    (writer_agent svc d s = .ok t → t.error = s.error) ∧
    (newsletter_agent svc d nd s = .ok t → t.error = s.error) ∧
    (∀ e, invokeWorkflow svc clock (initial_state topic email) = .error e →
      run_newsletter_workflow svc clock topic email = .failure e ∧
      (run_newsletter_workflow svc clock topic email).errorField = some e ∧
      (stagesStarted svc clock (initial_state topic email)).length =
        (checkpoints svc clock (initial_state topic email)).length + 1) ∧
    (∀ u ∈ checkpoints svc clock (initial_state topic email),
      u.error = none) := by
  refine ⟨fun h => ?_, fun h => ?_, fun h => ?_, fun e h => ?_,
    fun u hu => ?_⟩
  · obtain ⟨f, src, pd, rfl⟩ := research_agent_ok_shape svc d s t h
    rfl
  · obtain ⟨a, ti, pd, rfl⟩ := writer_agent_ok_shape svc d s t h
    rfl
  · obtain ⟨su, pd, rfl⟩ := newsletter_agent_ok_shape svc d nd s t h
    rfl
  · have hrun : run_newsletter_workflow svc clock topic email =
        .failure e := by
      unfold run_newsletter_workflow
      rw [h]
    refine ⟨hrun, by simp [hrun, RunResult.errorField], ?_⟩
    unfold invokeWorkflow at h
    unfold stagesStarted checkpoints
    cases hr : research_agent svc clock.researchDuration
        (initial_state topic email) with
    | error e1 =>
      unfold workflowSteps at h ⊢
      simp [hr]
    | ok s1 =>
      cases hw2 : writer_agent svc clock.writerDuration s1 with
      | error e2 =>
        unfold workflowSteps at h ⊢
        simp [hr, hw2]
      | ok s2 =>
        cases hn : newsletter_agent svc clock.newsletterDuration
            clock.nowDate s2 with
        | error e3 =>
          unfold workflowSteps at h ⊢
          simp [hr, hw2, hn]
        | ok s3 =>
          unfold workflowSteps at h
          simp [hr, hw2, hn] at h
  · unfold checkpoints at hu
    cases hr : research_agent svc clock.researchDuration
        (initial_state topic email) with
    | error e1 =>
      unfold workflowSteps at hu
      simp [hr] at hu
    | ok s1 =>
      have hs1err : s1.error = none := by
        obtain ⟨f, src, pd, hs1⟩ := research_agent_ok_shape _ _ _ _ hr
        rw [hs1]
        rfl
      cases hw2 : writer_agent svc clock.writerDuration s1 with
      | error e2 =>
        unfold workflowSteps at hu
        simp [hr, hw2] at hu
        subst hu
        exact hs1err
      | ok s2 =>
        have hs2err : s2.error = none := by
          obtain ⟨a, ti, pd, hs2⟩ := writer_agent_ok_shape _ _ _ _ hw2
          rw [hs2]
          exact hs1err
        cases hn : newsletter_agent svc clock.newsletterDuration
            clock.nowDate s2 with
        | error e3 =>
          unfold workflowSteps at hu
          simp [hr, hw2, hn] at hu
          rcases hu with hu | hu <;> subst hu
          · exact hs1err
          · exact hs2err
        | ok s3 =>
          have hs3err : s3.error = none := by
            obtain ⟨su, pd, hs3⟩ := newsletter_agent_ok_shape _ _ _ _ _ hn
            rw [hs3]
            exact hs2err
          unfold workflowSteps at hu
          simp [hr, hw2, hn] at hu
          rcases hu with hu | hu | hu <;> subst hu
          · exact hs1err
          · exact hs2err
          · exact hs3err

/-- C8 counterexample: a run whose writer stage fails unrecoverably returns
the failure envelope, yet no PipelineState anywhere has its `error` field
set: the data field is null and the only checkpointed state (the research
result) still carries `error = none`. -/
theorem C8_counterexample :
    run_newsletter_workflow svcWriterFail clockW "solar energy" "a@b.com" =
      .failure "writer model down" ∧
    (run_newsletter_workflow svcWriterFail clockW "solar energy"
      "a@b.com").dataField = none ∧
    (checkpoints svcWriterFail clockW
      (initial_state "solar energy" "a@b.com")).length = 1 ∧
    ((checkpoints svcWriterFail clockW
        (initial_state "solar energy" "a@b.com")).map AgentState.error) =
      [none] :=
  ⟨rfl, rfl, rfl, rfl⟩

/-- C8 witness: the amended failure behaviour on a concrete failing run. -/
theorem C8_witness :
    run_newsletter_workflow svcResearchFail clockW "solar energy"
      "a@b.com" = .failure "research model down" ∧
    (run_newsletter_workflow svcResearchFail clockW "solar energy"
      "a@b.com").errorField = some "research model down" ∧
    (stagesStarted svcResearchFail clockW
      (initial_state "solar energy" "a@b.com")).length =
      (checkpoints svcResearchFail clockW
        (initial_state "solar energy" "a@b.com")).length + 1 :=
  (C8_error_handling svcResearchFail clockW 1 "d"
    (initial_state "solar energy" "a@b.com")
    (initial_state "solar energy" "a@b.com")
    "solar energy" "a@b.com").2.2.2.1 "research model down" rfl

theorem emailBodyRender_ne_empty (t su dt : String) :
    emailBodyRender t su dt ≠ "" := by
  unfold emailBodyRender
  apply append_ne_empty
  apply append_ne_empty
  apply append_ne_empty
  apply append_ne_empty
  apply append_ne_empty
  apply append_ne_empty
  decide

/-- C1 (amended): for every non-empty topic and email, with a search stub
returning a fixed non-empty result list and generation stubs returning
fixed responses — the research response containing at least one non-blank
line, the writer and newsletter responses non-empty — the run succeeds with
status `newsletter_complete` and all nine state fields non-empty.  The
original claim, which requires of the stubbed responses only that they be
non-empty, fails: a whitespace-only research response parses to an empty
findings list (see the counterexample). -/
theorem C1_pipeline_end_to_end (svc : Services) (clock : Clock)
    (topic email : String) (res : List SearchResult) (rr w nl : String)
    (htop : topic ≠ "") (hem : email ≠ "") (hres : res ≠ [])
    (hsearch : ∀ q n, svc.search q n = .ok res)
    (hgr : ∀ p, svc.generateResearch p = .ok rr)
    (hrr : ∃ l ∈ splitNewlines rr, pystrip l ≠ "")
    (hgw : ∀ p, svc.generateWriter p = .ok w) (hw : w ≠ "")
    (hgn : ∀ p, svc.generateNewsletter p = .ok nl) (hnl : nl ≠ "") :
    ∃ s, run_newsletter_workflow svc clock topic email =
        .success s (thread_id topic email) ∧
      s.status = "newsletter_complete" ∧
      s.topic ≠ "" ∧ s.recipient_email ≠ "" ∧
      s.research_findings ≠ [] ∧ s.research_sources ≠ [] ∧
      s.full_article ≠ "" ∧ s.article_title ≠ "" ∧
      s.newsletter_summary ≠ "" ∧ s.email_subject ≠ "" ∧
      s.email_body ≠ "" := by
  simp only [run_newsletter_workflow, invokeWorkflow, workflowSteps,
    research_agent_eq, writer_agent_eq, newsletter_agent_eq, searchBlock,
    hsearch, hgr, hgw, hgn, initial_state]
  refine ⟨_, rfl, rfl, htop, hem, ?_, ?_, hw, hw, hnl, ?_, ?_⟩
  · exact parseFindings_ne_nil rr hrr
  · exact take_three_map_ne_nil _ _ hres
  · exact append_ne_empty _ _ (by decide)
  · exact emailBodyRender_ne_empty _ _ _

/-- C1 counterexample: the research generation stub returns the non-empty
(but whitespace-only) response `" "`; every stubbed response is non-empty
and fixed, the run completes with status `newsletter_complete`, yet
`research_findings` is the empty list, so not all nine output fields are
non-empty. -/
theorem C1_counterexample :
    svcBlankResearch.generateResearch "" = Except.ok " " ∧
    (" " : String).length = 1 ∧
    (run_newsletter_workflow svcBlankResearch clockW "solar energy"
      "a@b.com").successFlag = true ∧
    ((run_newsletter_workflow svcBlankResearch clockW "solar energy"
        "a@b.com").dataField.map AgentState.status) =
      some "newsletter_complete" ∧
    ((run_newsletter_workflow svcBlankResearch clockW "solar energy"
        "a@b.com").dataField.map AgentState.research_findings) = some [] :=
  ⟨rfl, rfl, rfl, rfl, rfl⟩

/-- C1 witness: a fully successful concrete run under the amended
hypotheses. -/
theorem C1_witness :
    (run_newsletter_workflow svcGood clockW "solar energy"
      "a@b.com").successFlag = true ∧
    ((run_newsletter_workflow svcGood clockW "solar energy"
        "a@b.com").dataField.map AgentState.status) =
      some "newsletter_complete" ∧
    ((run_newsletter_workflow svcGood clockW "solar energy"
        "a@b.com").dataField.map
      (fun s => s.research_findings.isEmpty)) = some false := by
  obtain ⟨s, hs, hst, hto, hem2, hrf, hrs2, hfa, hat2, hns2, hes2, heb2⟩ :=
    C1_pipeline_end_to_end svcGood clockW "solar energy" "a@b.com"
      [⟨"content one", "http://u1"⟩, ⟨"content two", "http://u2"⟩]
      "Finding one\nFinding two\nFinding three"
      "Solar power is growing fast across the world"
      "A short summary with a call to action"
      (by decide) (by decide) (by decide) (fun q n => rfl) (fun p => rfl)
      (by decide) (fun p => rfl) (by decide) (fun p => rfl) (by decide)
  rw [hs]
  simp [RunResult.successFlag, RunResult.dataField, hst,
    List.isEmpty_eq_false, hrf]

/-- C9: with identical stubbed services, two runs of the workflow with the
same topic and email — differing only in their wall-clock readings — have
the same success flag, error and thread id, and on success the two output
states agree on every field that embeds no clock reading (all nine data
fields except the email body, plus status and error), have message logs of
equal length and metrics maps with identical keys, while the email bodies
are the same template instantiated at the two generation dates. -/
theorem C9_determinism (svc : Services) (c1 c2 : Clock)
    (topic email : String) :
    (run_newsletter_workflow svc c1 topic email).successFlag =
      (run_newsletter_workflow svc c2 topic email).successFlag ∧
    (run_newsletter_workflow svc c1 topic email).errorField =
      (run_newsletter_workflow svc c2 topic email).errorField ∧
    (run_newsletter_workflow svc c1 topic email).threadIdField =
      (run_newsletter_workflow svc c2 topic email).threadIdField ∧
    ∀ s1 s2,
      (run_newsletter_workflow svc c1 topic email).dataField = some s1 →
      (run_newsletter_workflow svc c2 topic email).dataField = some s2 →
      StableAgree s1 s2 ∧
      s1.email_body =
        emailBodyRender s1.article_title s1.newsletter_summary c1.nowDate ∧
      s2.email_body =
        emailBodyRender s2.article_title s2.newsletter_summary c2.nowDate := by
  have h0 := preAgree_refl (initial_state topic email)
  rcases research_agent_congr svc c1.researchDuration c2.researchDuration _ _
      h0 with ⟨e, he1, he2⟩ | ⟨t1, t2, ho1, ho2, hA⟩
  · have r1 : run_newsletter_workflow svc c1 topic email = .failure e := by
      simp [run_newsletter_workflow, invokeWorkflow, workflowSteps, he1]
    have r2 : run_newsletter_workflow svc c2 topic email = .failure e := by
      simp [run_newsletter_workflow, invokeWorkflow, workflowSteps, he2]
    rw [r1, r2]
    exact ⟨rfl, rfl, rfl, fun s1 s2 h1 h2 => by
      simp [RunResult.dataField] at h1⟩
  · rcases writer_agent_congr svc c1.writerDuration c2.writerDuration _ _
        hA with ⟨e, he1, he2⟩ | ⟨u1, u2, hp1, hp2, hA2⟩
    · have r1 : run_newsletter_workflow svc c1 topic email = .failure e := by
        simp [run_newsletter_workflow, invokeWorkflow, workflowSteps, ho1,
          he1]
      have r2 : run_newsletter_workflow svc c2 topic email = .failure e := by
        simp [run_newsletter_workflow, invokeWorkflow, workflowSteps, ho2,
          he2]
      rw [r1, r2]
      exact ⟨rfl, rfl, rfl, fun s1 s2 h1 h2 => by
        simp [RunResult.dataField] at h1⟩
    · rcases newsletter_agent_congr svc c1.newsletterDuration
          c2.newsletterDuration c1.nowDate c2.nowDate _ _ hA2 with
        ⟨e, he1, he2⟩ | ⟨v1, v2, hq1, hq2, hS, hb1, hb2⟩
      · have r1 : run_newsletter_workflow svc c1 topic email =
            .failure e := by
          simp [run_newsletter_workflow, invokeWorkflow, workflowSteps, ho1,
            hp1, he1]
        have r2 : run_newsletter_workflow svc c2 topic email =
            .failure e := by
          simp [run_newsletter_workflow, invokeWorkflow, workflowSteps, ho2,
            hp2, he2]
        rw [r1, r2]
        exact ⟨rfl, rfl, rfl, fun s1 s2 h1 h2 => by
          simp [RunResult.dataField] at h1⟩
      · have r1 : run_newsletter_workflow svc c1 topic email =
            .success v1 (thread_id topic email) := by
          simp [run_newsletter_workflow, invokeWorkflow, workflowSteps, ho1,
            hp1, hq1]
        have r2 : run_newsletter_workflow svc c2 topic email =
            .success v2 (thread_id topic email) := by
          simp [run_newsletter_workflow, invokeWorkflow, workflowSteps, ho2,
            hp2, hq2]
        rw [r1, r2]
        refine ⟨rfl, rfl, rfl, fun s1 s2 h1 h2 => ?_⟩
        simp [RunResult.dataField] at h1 h2
        subst h1
        subst h2
        exact ⟨hS, hb1, hb2⟩

/-- C9 witness: two concrete runs under different clocks agree on the
success flag and the article content. -/
theorem C9_witness :
    (run_newsletter_workflow svcGood clockW "solar energy"
      "a@b.com").successFlag =
      (run_newsletter_workflow svcGood clockW2 "solar energy"
        "a@b.com").successFlag ∧
    ((run_newsletter_workflow svcGood clockW "solar energy"
        "a@b.com").dataField.map AgentState.full_article) =
      ((run_newsletter_workflow svcGood clockW2 "solar energy"
          "a@b.com").dataField.map AgentState.full_article) := by
  have h := C9_determinism svcGood clockW clockW2 "solar energy" "a@b.com"
  refine ⟨h.1, ?_⟩
  obtain ⟨s1, hs1⟩ : ∃ s, (run_newsletter_workflow svcGood clockW
      "solar energy" "a@b.com").dataField = some s := ⟨_, rfl⟩
  obtain ⟨s2, hs2⟩ : ∃ s, (run_newsletter_workflow svcGood clockW2
      "solar energy" "a@b.com").dataField = some s := ⟨_, rfl⟩
  have h4 := h.2.2.2 s1 s2 hs1 hs2
  rw [hs1, hs2]
  have hfa : s1.full_article = s2.full_article := h4.1.2.2.2.2.1
  simp [hfa]

end ContentFlow
